import Mathlib

/-!
Shallow embedding of the release-tool workflow (release orchestrator,
backup-policy handlers, pre-sign workflow, release-notes sync).

The remote transport and the local filesystem are external collaborators;
they are modelled by an environment oracle (`Env`) answering queries, and
every side effect the code performs is recorded as an `Event` in a trace.
Each Lean function mirrors one Python function of the source.
-/

namespace ReleaseTool

/-- Mirrors `config.OldFilePolicy`. -/
inductive OldFilePolicy where
  | delete
  | rename
  deriving DecidableEq, Repr

/-- Mirrors `config.SubfolderNaming`. -/
inductive SubfolderNaming where
  | timestamp
  | version
  deriving DecidableEq, Repr

/-- Mirrors `config.FTPConfig`. -/
structure FTPConfig where
  host : String
  port : Nat
  username : String
  password : String
  remote_path : String
  deriving DecidableEq, Repr

/-- Mirrors `config.OldFileConfig`. -/
structure OldFileConfig where
  policy : OldFilePolicy
  subfolder_base : String
  subfolder_naming : SubfolderNaming
  deriving DecidableEq, Repr

/-- Mirrors `pre_signer.PreSignConfig`. -/
structure PreSignConfig where
  enabled : Bool
  network_path : String
  network_path_signed : String
  expected_signer : String
  poll_interval : Nat
  timeout : Nat
  deriving DecidableEq, Repr

/-- Mirrors `config.ReleaseNotesConfig`. -/
structure ReleaseNotesConfig where
  path : String
  remote_path : String
  deriving DecidableEq, Repr

/-- Mirrors `config.ReleaseConfig`. -/
structure ReleaseConfig where
  ftp : FTPConfig
  old_file : OldFileConfig
  pre_sign : Option PreSignConfig := none
  release_notes : Option ReleaseNotesConfig := none
  deriving DecidableEq, Repr

/-- A local wall-clock date and time, for `datetime.now()`. -/
structure DateTime where
  year : Nat
  month : Nat
  day : Nat
  hour : Nat
  minute : Nat
  second : Nat
  deriving DecidableEq, Repr

/-- Zero-pad a number to two digits, as `strftime` field formatting does. -/
def pad2 (n : Nat) : String :=
  if n < 10 then "0" ++ toString n else toString n

/-- Zero-pad a number to four digits, as `strftime` `%Y` does. -/
def pad4 (n : Nat) : String :=
  if n < 10 then "000" ++ toString n
  else if n < 100 then "00" ++ toString n
  else if n < 1000 then "0" ++ toString n
  else toString n

/-- Mirrors `datetime.now().strftime("%Y%m%d_%H%M%S")`. -/
def formatTimestamp (d : DateTime) : String :=
  pad4 d.year ++ pad2 d.month ++ pad2 d.day ++ "_" ++
    pad2 d.hour ++ pad2 d.minute ++ pad2 d.second

/-- One observable action of the program: a remote-transport operation, a
local-filesystem mutation, an interactive prompt, or a log line. -/
inductive Event where
  | connect
  | disconnect
  | fileExistsQ (name : String)
  | dirExistsQ (path : String)
  | deleteFile (name : String)
  | renameFile (oldName newName : String)
  | ensureDirectory (path : String)
  | changeDirectory (path : String)
  | listDirectoriesQ
  | uploadFile (path : String)
  | prompt (msg : String)
  | copyFile (src dst : String)
  | unlink (path : String)
  | sleep (secs : Nat)
  | logInfo (msg : String)
  | logWarning (msg : String)
  | logError (msg : String)
  deriving DecidableEq, Repr

/-- Remote-transport operations (anything sent over the connection). -/
def Event.isRemoteOp : Event → Bool
  | .connect => true
  | .disconnect => true
  | .fileExistsQ _ => true
  | .dirExistsQ _ => true
  | .deleteFile _ => true
  | .renameFile _ _ => true
  | .ensureDirectory _ => true
  | .changeDirectory _ => true
  | .listDirectoriesQ => true
  | .uploadFile _ => true
  | _ => false

/-- Remote-side writes (mutations of the remote store). -/
def Event.isRemoteWrite : Event → Bool
  | .deleteFile _ => true
  | .renameFile _ _ => true
  | .ensureDirectory _ => true
  | .uploadFile _ => true
  | _ => false

/-- Local-filesystem mutations. -/
def Event.isFsWrite : Event → Bool
  | .copyFile _ _ => true
  | .unlink _ => true
  | _ => false

/-- Interactive prompt events. -/
def Event.isPrompt : Event → Bool
  | .prompt _ => true
  | _ => false

/-- Upload events. -/
def Event.isUpload : Event → Bool
  | .uploadFile _ => true
  | _ => false

/-- Delete events. -/
def Event.isDelete : Event → Bool
  | .deleteFile _ => true
  | _ => false

/-- Rename events. -/
def Event.isRename : Event → Bool
  | .renameFile _ _ => true
  | _ => false

/-- Directory-creation events. -/
def Event.isEnsureDir : Event → Bool
  | .ensureDirectory _ => true
  | _ => false

/-- Error-log events. -/
def Event.isErrorLog : Event → Bool
  | .logError _ => true
  | _ => false

/-- Log events of any severity (pure observability, no effect). -/
def Event.isLog : Event → Bool
  | .logInfo _ => true
  | .logWarning _ => true
  | .logError _ => true
  | _ => false

/-- One directory entry of `Path.iterdir()`. -/
structure FsEntry where
  name : String
  isDir : Bool
  isFile : Bool
  deriving DecidableEq, Repr

/-- Outcome of one `subprocess.run` of the PowerShell signature query:
either the invocation itself failed (OSError / 30s subprocess timeout), or
it finished with a return code and captured standard output. -/
inductive RunResult where
  | crashed
  | finished (returncode : Int) (stdout : String)
  deriving DecidableEq, Repr

/-- What one poll of the signed directory observes: the signed file is not
there yet, or it is there and inspecting it gives a `RunResult`. -/
inductive PollObs where
  | absent
  | present (run : RunResult)
  deriving DecidableEq, Repr

/-- Environment oracle: answers every query the code makes of the local
filesystem, the remote transport, the operator and the clock. -/
structure Env where
  localExists : String → Bool
  localIsDir : String → Bool
  entries : String → List FsEntry
  remoteFileExists : String → Bool
  remoteDirExists : String → Bool
  listResult : Option (List String)
  promptAnswer : String
  now : DateTime
  polls : Nat → PollObs

/-- Mirrors Python `str.lower()` (character-wise lowering). -/
def pyLower (s : String) : String := String.mk (s.data.map Char.toLower)

/-- Drops leading whitespace characters. -/
def dropLeadingWS : List Char → List Char
  | [] => []
  | c :: cs => if c.isWhitespace then dropLeadingWS cs else c :: cs

/-- Mirrors Python `str.strip()`: remove whitespace at both ends. -/
def pyStrip (s : String) : String :=
  String.mk ((dropLeadingWS (dropLeadingWS s.data).reverse).reverse)

/-- Splitting a character list at a separator, accumulating the current
piece in reverse. -/
def splitCharAux (sep : Char) : List Char → List Char → List String
  | [], acc => [String.mk acc.reverse]
  | c :: cs, acc =>
    if c = sep then String.mk acc.reverse :: splitCharAux sep cs []
    else splitCharAux sep cs (c :: acc)

/-- Mirrors Python `subject.split(",")`. -/
def pySplitComma (s : String) : List String := splitCharAux ',' s.data []

/-- Whether the first character list starts with the second. -/
def charsStartWith : List Char → List Char → Bool
  | _, [] => true
  | [], _ :: _ => false
  | c :: cs, p :: ps => c == p && charsStartWith cs ps

/-- Mirrors Python `s.startswith(pre)`. -/
def pyStartsWith (s pre : String) : Bool := charsStartWith s.data pre.data

/-- Mirrors Python slicing `s[n:]`. -/
def pyDrop (s : String) (n : Nat) : String := String.mk (s.data.drop n)

/-- Code-point lexicographic less-or-equal on character lists, as Python
compares strings. -/
def charLE : List Char → List Char → Bool
  | [], _ => true
  | _ :: _, [] => false
  | a :: as, b :: bs =>
    if a.toNat < b.toNat then true
    else if b.toNat < a.toNat then false
    else charLE as bs

/-- Code-point lexicographic less-or-equal on strings. -/
def strLE (a b : String) : Bool := charLE a.data b.data

/-- Mirrors Python `list.sort()` on strings: insertion sort by the
code-point order. -/
def pySort (l : List String) : List String :=
  List.insertionSort (fun a b => strLE a b = true) l

/-- Mirrors `Path.name`: the final path component. -/
def baseName (p : String) : String := (splitCharAux '/' p.data []).getLastD p

/-- Mirrors `DeleteHandler.handle`: delete the existing file. -/
def DeleteHandler.handle (filename : String) : List Event :=
  [Event.deleteFile filename,
   Event.logInfo ("Deleted old file: " ++ filename)]

/-- Mirrors `RenameHandler.handle`: move the existing file to a backup
subfolder.  The suffix is the timestamp under timestamp naming; under
version naming it is the version when one was supplied (Python `if not
version` also treats the empty string as missing), else the timestamp with
a warning. -/
def RenameHandler.handle (subfolder_base : String) (naming : SubfolderNaming)
    (now : DateTime) (filename : String) (version : Option String) :
    List Event :=
  let fallback : String × List Event :=
    (formatTimestamp now,
     [Event.logWarning "No version provided, falling back to timestamp naming"])
  let chosen : String × List Event :=
    match naming with
    | .timestamp => (formatTimestamp now, [])
    | .version =>
      match version with
      | none => fallback
      | some v => if v = "" then fallback else (v, [])
  let suffix := chosen.1
  let subfolder := subfolder_base ++ "/" ++ suffix
  let new_path := subfolder ++ "/" ++ filename
  chosen.2 ++
    [Event.ensureDirectory subfolder_base,
     Event.ensureDirectory subfolder,
     Event.renameFile filename new_path,
     Event.logInfo ("Moved old file to: " ++ new_path)]

/-- Mirrors `create_handler` composed with `handle`: dispatch on the
configured policy. -/
def handleOldFile (cfg : OldFileConfig) (now : DateTime) (filename : String)
    (version : Option String) : List Event :=
  match cfg.policy with
  | .delete => DeleteHandler.handle filename
  | .rename =>
    RenameHandler.handle cfg.subfolder_base cfg.subfolder_naming now
      filename version

/-- Release-tool error kinds (`exceptions.py`): transport errors and
pre-sign errors. -/
inductive RTError where
  | ftp (msg : String)
  | preSign (msg : String)
  deriving DecidableEq, Repr

/-- Mirrors the `CN=` parsing loop of `PreSigner._get_signature`: split the
subject on commas and return the first component that, stripped, starts
with `CN=`, with the marker removed and the remainder stripped. -/
def parseCN (subject : String) : Option String :=
  (pySplitComma subject).findSome? (fun part =>
    let p := pyStrip part
    if pyStartsWith p "CN=" then some (pyStrip (pyDrop p 3)) else none)

/-- Mirrors `PreSigner._get_signature`: a crashed or timed-out inspection
command, a nonzero return code, or empty output yields no signer; otherwise
the `CN=` component is parsed from the stripped output. -/
def getSignature (r : RunResult) : Option String :=
  match r with
  | .crashed => none
  | .finished rc out =>
    if rc ≠ 0 ∨ pyStrip out = "" then none else parseCN (pyStrip out)

/-- Python truthiness test `signer and signer == expected`. -/
def signerMatches (signer? : Option String) (expected : String) : Bool :=
  match signer? with
  | none => false
  | some s => !(s = "") && s = expected

/-- The `{signer or 'unsigned'}` display in the waiting log line. -/
def signerDisplay (signer? : Option String) : String :=
  match signer? with
  | none => "unsigned"
  | some s => if s = "" then "unsigned" else s

/-- Mirrors the loop of `PreSigner._wait_for_signature` under an idealized
clock: the elapsed time observed at iteration `k` is `k * poll_interval`
(time advances only in the sleeps).  `fuel` is a structural bound on the
number of iterations; the caller passes enough fuel that, with a positive
poll interval, the timeout check always fires first. -/
def waitLoop (cfg : PreSignConfig) (obs : Nat → PollObs) (signedFile : String)
    (k : Nat) : Nat → Except RTError String × List Event
  | 0 => (Except.error (RTError.preSign "poll fuel exhausted"), [])
  | fuel + 1 =>
    let elapsed := k * cfg.poll_interval
    if cfg.timeout ≤ elapsed then
      (Except.error (RTError.preSign
        ("Timeout waiting for signature after " ++ toString cfg.timeout ++ "s")),
       [])
    else
      let remaining := cfg.timeout - elapsed
      match obs k with
      | .absent =>
        let rest := waitLoop cfg obs signedFile (k + 1) fuel
        (rest.1,
         Event.logInfo ("Waiting for signed file... (" ++ toString remaining ++
             "s remaining, file not yet in signed directory)") ::
           Event.sleep cfg.poll_interval :: rest.2)
      | .present run =>
        let signer? := getSignature run
        if signerMatches signer? cfg.expected_signer then
          (Except.ok signedFile,
           [Event.logInfo ("Signature verified: " ++ signerDisplay signer?)])
        else
          let rest := waitLoop cfg obs signedFile (k + 1) fuel
          (rest.1,
           Event.logInfo ("Waiting for signature... (" ++ toString remaining ++
               "s remaining, current: " ++ signerDisplay signer? ++ ")") ::
             Event.sleep cfg.poll_interval :: rest.2)

/-- Mirrors `PreSigner._move_back`: copy the signed file over the original,
unlink the signed copy, and unlink the exchange copy when it still exists. -/
def moveBack (env : Env) (signedFile unsignedNetworkFile originalPath : String) :
    List Event :=
  [Event.copyFile signedFile originalPath, Event.unlink signedFile] ++
    (if env.localExists unsignedNetworkFile then
      [Event.unlink unsignedNetworkFile]
    else []) ++
    [Event.logInfo ("Moved signed file back to: " ++ originalPath)]

/-- Mirrors `PreSigner.process`: copy to the exchange path (failing fast
when it is not accessible), wait for a verified signature, then hand the
signed bytes back.  The wait loop is run with `timeout + 1` fuel, enough
for the idealized clock to reach the timeout whenever the poll interval is
positive. -/
def PreSigner.process (cfg : PreSignConfig) (env : Env) (filePath : String) :
    Except RTError String × List Event :=
  let filename := baseName filePath
  if !(env.localExists cfg.network_path) then
    (Except.error (RTError.preSign
      ("Network path not accessible: " ++ cfg.network_path)), [])
  else
    let destPath := cfg.network_path ++ "/" ++ filename
    let ev1 := [Event.copyFile filePath destPath,
                Event.logInfo ("Copied to network path: " ++ destPath)]
    let signedFile := cfg.network_path_signed ++ "/" ++ filename
    let waited := waitLoop cfg env.polls signedFile 0 (cfg.timeout + 1)
    match waited.1 with
    | .error e => (Except.error e, ev1 ++ waited.2)
    | .ok signed =>
      (Except.ok filePath,
       ev1 ++ waited.2 ++ moveBack env signed destPath filePath)

/-- Mirrors `ReleaseNotesUploader._get_local_folders`: names of the
immediate subdirectories, sorted. -/
def getLocalFolders (entries : List FsEntry) : List String :=
  pySort ((entries.filter (·.isDir)).map (·.name))

/-- Mirrors `ReleaseNotesUploader._get_remote_folders`: change into the
remote path and list its directories; any failure is caught and treated as
an empty list.  `Env.listResult = none` models the failing attempt. -/
def getRemoteFolders (rn : ReleaseNotesConfig) (env : Env) :
    List String × List Event :=
  let attempt := [Event.changeDirectory rn.remote_path, Event.listDirectoriesQ]
  match env.listResult with
  | some l => (l, attempt)
  | none => ([], attempt)

/-- Mirrors the `for folder_name in new_folders` loop of
`ReleaseNotesUploader._execute_upload`: create and enter each remote
folder, then upload the regular files directly inside the local folder. -/
def uploadFolders (rn : ReleaseNotesConfig) (env : Env) :
    List String → List Event
  | [] => []
  | f :: rest =>
    let remote_folder := rn.remote_path ++ "/" ++ f
    let local_folder := rn.path ++ "/" ++ f
    [Event.logInfo ("Uploading release notes folder: " ++ f),
     Event.ensureDirectory remote_folder,
     Event.changeDirectory remote_folder] ++
      ((env.entries local_folder).filter (·.isFile)).map
        (fun e => Event.uploadFile (local_folder ++ "/" ++ e.name)) ++
      uploadFolders rn env rest

/-- Mirrors `ReleaseNotesUploader._execute_upload`. -/
def executeUpload (rn : ReleaseNotesConfig) (env : Env)
    (local_folders : List String) : Bool × List Event :=
  let ev0 := [Event.ensureDirectory rn.remote_path]
  let remote := getRemoteFolders rn env
  let new_folders := local_folders.filter (fun f => !(remote.1.contains f))
  if new_folders.isEmpty then
    (true, ev0 ++ remote.2 ++
      [Event.logInfo "No new release notes folders to upload"])
  else
    (true, ev0 ++ remote.2 ++
      [Event.logInfo "New release notes folders to upload"] ++
      uploadFolders rn env new_folders ++
      [Event.logInfo "Release notes upload complete"])

/-- Mirrors `ReleaseNotesUploader._dry_run_upload`. -/
def dryRunUpload (rn : ReleaseNotesConfig) (local_folders : List String) :
    Bool × List Event :=
  (true,
   [Event.logInfo "[DRY RUN] Release notes upload:",
    Event.logInfo ("[DRY RUN] Local path: " ++ rn.path),
    Event.logInfo ("[DRY RUN] Remote path: " ++ rn.remote_path),
    Event.logInfo ("[DRY RUN] Local folders: " ++
      String.intercalate ", " local_folders),
    Event.logInfo "[DRY RUN] Would check remote for existing folders",
    Event.logInfo "[DRY RUN] Would upload new folders"])

/-- Mirrors `ReleaseNotesUploader.upload`. -/
def ReleaseNotesUploader.upload (rn : ReleaseNotesConfig) (dry_run : Bool)
    (env : Env) : Bool × List Event :=
  if !(env.localExists rn.path) then
    (false, [Event.logError ("Release notes path not found: " ++ rn.path)])
  else if !(env.localIsDir rn.path) then
    (false,
     [Event.logError ("Release notes path is not a directory: " ++ rn.path)])
  else
    let local_folders := getLocalFolders (env.entries rn.path)
    if local_folders.isEmpty then
      (true, [Event.logInfo "No release notes folders found locally"])
    else if dry_run then dryRunUpload rn local_folders
    else executeUpload rn env local_folders

/-- Python truthiness of `self.version`: absent or empty counts as not
supplied. -/
def versionSupplied : Option String → Bool
  | none => false
  | some v => !(v == "")

/-- Mirrors `ReleaseManager._check_version_exists`: the version-collision
gate.  Only evaluated when a version was supplied (Python `if not
self.version` also skips an empty string) and the policy is Rename; it
opens its own transport session, checks for the backup folder, and
prompts the operator when that folder exists. -/
def checkVersionExists (cfg : ReleaseConfig) (version : Option String)
    (env : Env) : Bool × List Event :=
  match version with
  | none => (true, [])
  | some v =>
    if v = "" then (true, [])
    else if cfg.old_file.policy ≠ OldFilePolicy.rename then (true, [])
    else
      let version_path := cfg.old_file.subfolder_base ++ "/" ++ v
      if env.remoteDirExists version_path then
        let evPrompt :=
          [Event.connect, Event.dirExistsQ version_path,
           Event.logWarning ("Version folder already exists: " ++ version_path),
           Event.prompt ("Version " ++ v ++ " already exists. Overwrite? [y/N]: ")]
        if pyLower env.promptAnswer ≠ "y" then
          (false, evPrompt ++ [Event.logInfo "Aborted by user", Event.disconnect])
        else
          (true, evPrompt ++ [Event.disconnect])
      else
        (true, [Event.connect, Event.dirExistsQ version_path, Event.disconnect])

/-- Mirrors `OldFilePolicy.value` of the Python enum. -/
def policyValue : OldFilePolicy → String
  | .delete => "delete"
  | .rename => "rename"

/-- Mirrors `ReleaseManager._dry_run_release`: the live preview, including
the dry-run release-notes pass when notes are configured.  The version
line is guarded by Python `if self.version:`, so an empty string logs
nothing. -/
def dryRunRelease (cfg : ReleaseConfig) (version : Option String) (env : Env)
    (filePath : String) : Bool × List Event :=
  let filename := baseName filePath
  let evPS :=
    match cfg.pre_sign with
    | none => []
    | some ps =>
      [Event.logInfo "[DRY RUN] Pre-signing enabled",
       Event.logInfo ("[DRY RUN] Would copy " ++ filename ++ " to " ++
         ps.network_path),
       Event.logInfo ("[DRY RUN] Would wait for signed file at: " ++
         ps.network_path_signed),
       Event.logInfo ("[DRY RUN] Expected signer: " ++ ps.expected_signer),
       Event.logInfo ("[DRY RUN] Poll interval: " ++ toString ps.poll_interval ++
         "s, timeout: " ++ toString ps.timeout ++ "s"),
       Event.logInfo "[DRY RUN] Would move signed file back to source location"]
  let evMain :=
    [Event.logInfo "[DRY RUN] Would connect to FTP server",
     Event.logInfo ("[DRY RUN] Host: " ++ cfg.ftp.host ++ ":" ++
       toString cfg.ftp.port),
     Event.logInfo ("[DRY RUN] Remote path: " ++ cfg.ftp.remote_path),
     Event.logInfo ("[DRY RUN] Would check if " ++ filename ++
       " exists on remote"),
     Event.logInfo ("[DRY RUN] Old file policy: " ++
       policyValue cfg.old_file.policy)]
  let evVer :=
    match version with
    | none => []
    | some v =>
      if v = "" then []
      else [Event.logInfo ("[DRY RUN] Version for backup: " ++ v)]
  let evUp := [Event.logInfo ("[DRY RUN] Would upload " ++ filePath)]
  let evRN :=
    match cfg.release_notes with
    | none => []
    | some rn => (ReleaseNotesUploader.upload rn true env).2
  (true,
   evPS ++ evMain ++ evVer ++ evUp ++ evRN ++
     [Event.logInfo "[DRY RUN] Would disconnect from FTP server"])

/-- Mirrors `ReleaseManager._execute_release`: version-collision gate,
optional pre-signing, then the connected block (existence check, old-file
handling, upload, optional release-notes sync).  Transport operations of
the connected block succeed in this model; the uploader's boolean result
is discarded, as in the source. -/
def executeRelease (cfg : ReleaseConfig) (version : Option String) (env : Env)
    (filePath : String) : Except RTError Bool × List Event :=
  let filename := baseName filePath
  let gate := checkVersionExists cfg version env
  if !gate.1 then (Except.ok false, gate.2)
  else
    let signed :=
      match cfg.pre_sign with
      | none => (Except.ok filePath, [])
      | some ps =>
        let p := PreSigner.process ps env filePath
        (p.1, Event.logInfo "Starting pre-signing process..." :: p.2)
    match signed.1 with
    | .error e => (Except.error e, gate.2 ++ signed.2)
    | .ok path2 =>
      let evHandle :=
        if env.remoteFileExists filename then
          Event.logInfo ("Existing file found: " ++ filename) ::
            handleOldFile cfg.old_file env.now filename version
        else []
      let evRN :=
        match cfg.release_notes with
        | none => []
        | some rn => (ReleaseNotesUploader.upload rn false env).2
      (Except.ok true,
       gate.2 ++ signed.2 ++
         [Event.connect, Event.fileExistsQ filename] ++ evHandle ++
         [Event.uploadFile path2,
          Event.logInfo ("Successfully released " ++ filename)] ++
         evRN ++ [Event.disconnect])

/-- Mirrors `ReleaseManager.release`: missing artifact fails immediately,
otherwise branch to the dry-run preview or the live release. -/
def ReleaseManager.release (cfg : ReleaseConfig) (dry_run : Bool)
    (version : Option String) (env : Env) (filePath : String) :
    Except RTError Bool × List Event :=
  if !(env.localExists filePath) then
    (Except.ok false, [Event.logError ("File not found: " ++ filePath)])
  else
    let filename := baseName filePath
    let ev0 := [Event.logInfo ("Starting release of " ++ filename)]
    if dry_run then
      let d := dryRunRelease cfg version env filePath
      (Except.ok d.1, ev0 ++ d.2)
    else
      let r := executeRelease cfg version env filePath
      (r.1, ev0 ++ r.2)

/-! Concrete fixtures used by witnesses and counterexamples. -/

/-- A fixed wall-clock instant. -/
def dtW : DateTime := ⟨2024, 1, 2, 3, 4, 5⟩

/-- A concrete FTP endpoint. -/
def ftpW : FTPConfig := ⟨"ftp.example.com", 21, "user", "pw", "/releases"⟩

/-- A concrete Rename backup configuration with version naming. -/
def ofRenameW : OldFileConfig := ⟨.rename, "old_versions", .version⟩

/-- A concrete release-notes configuration. -/
def rnW : ReleaseNotesConfig := ⟨"notes", "remote_notes"⟩

/-- An environment in which no local path exists. -/
def envMissing : Env :=
  { localExists := fun _ => false
    localIsDir := fun _ => false
    entries := fun _ => []
    remoteFileExists := fun _ => false
    remoteDirExists := fun _ => false
    listResult := some []
    promptAnswer := ""
    now := dtW
    polls := fun _ => PollObs.absent }

/-- An environment in which only the artifact `app.exe` exists locally. -/
def envArtifactOnly : Env :=
  { localExists := fun p => p == "app.exe"
    localIsDir := fun _ => false
    entries := fun _ => []
    remoteFileExists := fun _ => false
    remoteDirExists := fun _ => false
    listResult := some []
    promptAnswer := ""
    now := dtW
    polls := fun _ => PollObs.absent }

/-- An environment with the artifact plus a notes folder holding one
version subfolder. -/
def envNotesW : Env :=
  { localExists := fun p => p == "app.exe" || p == "notes"
    localIsDir := fun p => p == "notes"
    entries := fun p =>
      if p == "notes" then [⟨"1.0.0", true, false⟩]
      else if p == "notes/1.0.0" then [⟨"readme.txt", false, true⟩]
      else []
    remoteFileExists := fun _ => false
    remoteDirExists := fun _ => false
    listResult := some []
    promptAnswer := ""
    now := dtW
    polls := fun _ => PollObs.absent }

/-- The four trailing events every `RenameHandler.handle` run emits:
ensure the base folder, ensure the suffixed folder, move the file there,
log the move. -/
def renameEvents (base suffix filename : String) : List Event :=
  [Event.ensureDirectory base,
   Event.ensureDirectory (base ++ "/" ++ suffix),
   Event.renameFile filename (base ++ "/" ++ suffix ++ "/" ++ filename),
   Event.logInfo ("Moved old file to: " ++
     (base ++ "/" ++ suffix ++ "/" ++ filename))]

/-- C8: every invocation of the Delete backup handler calls delete exactly
once, with the existing file name, and never calls rename or
ensure_directory. -/
theorem c8_delete_handler (filename : String) :
    (DeleteHandler.handle filename).filter Event.isDelete =
      [Event.deleteFile filename] ∧
    (DeleteHandler.handle filename).all
      (fun e => !(e.isRename) && !(e.isEnsureDir)) = true := by
  refine ⟨?_, ?_⟩ <;>
    simp [DeleteHandler.handle, Event.isDelete, Event.isRename,
      Event.isEnsureDir]

/-- C4: the Rename backup handler, under Version naming with no version
(or an empty one), uses the `YYYYMMDD_HHMMSS` timestamp suffix and emits a
warning; with a supplied nonempty version the suffix is exactly that
version; and in every case it ensures the base folder and the suffixed
folder and moves the file to `base/suffix/filename`. -/
theorem c4_rename_handler (base : String) (naming : SubfolderNaming)
    (now : DateTime) (filename : String) (version : Option String) :
    (RenameHandler.handle base .version now filename none =
      Event.logWarning "No version provided, falling back to timestamp naming" ::
        renameEvents base (formatTimestamp now) filename) ∧
    (∀ v : String, v ≠ "" →
      RenameHandler.handle base .version now filename (some v) =
        renameEvents base v filename) ∧
    (∃ suffix : String, ∃ warnEvents : List Event,
      RenameHandler.handle base naming now filename version =
        warnEvents ++ renameEvents base suffix filename) := by
  refine ⟨rfl, ?_, ?_⟩
  · intro v hv
    simp [RenameHandler.handle, hv, renameEvents]
  · cases naming with
    | timestamp => exact ⟨formatTimestamp now, [], rfl⟩
    | version =>
      cases version with
      | none =>
        exact ⟨formatTimestamp now,
          [Event.logWarning "No version provided, falling back to timestamp naming"],
          rfl⟩
      | some v =>
        by_cases hv : v = ""
        · subst hv
          exact ⟨formatTimestamp now,
            [Event.logWarning "No version provided, falling back to timestamp naming"],
            rfl⟩
        · exact ⟨v, [], by simp [RenameHandler.handle, hv, renameEvents]⟩

/-- C4 witness: at a concrete input, version naming with version `1.2.3`
moves the old file into `old_versions/1.2.3`. -/
theorem c4_rename_handler_witness :
    RenameHandler.handle "old_versions" .version dtW "app.exe" (some "1.2.3") =
      renameEvents "old_versions" "1.2.3" "app.exe" :=
  (c4_rename_handler "old_versions" .version dtW "app.exe"
      (some "1.2.3")).2.1 "1.2.3" (by decide)

/-- C6: a missing artifact path makes release return failure immediately,
reporting not-found, with no remote operation at all, in both live and
dry-run mode. -/
theorem c6_missing_artifact (cfg : ReleaseConfig) (dry_run : Bool)
    (version : Option String) (env : Env) (filePath : String)
    (h : env.localExists filePath = false) :
    ReleaseManager.release cfg dry_run version env filePath =
      (Except.ok false, [Event.logError ("File not found: " ++ filePath)]) ∧
    (ReleaseManager.release cfg dry_run version env filePath).2.all
      (fun e => !(e.isRemoteOp)) = true := by
  refine ⟨?_, ?_⟩ <;> simp [ReleaseManager.release, h, Event.isRemoteOp]

/-- C6 witness: at a concrete input with no such local file, release
returns failure and touches nothing remote. -/
theorem c6_missing_artifact_witness :
    ReleaseManager.release ⟨ftpW, ofRenameW, none, none⟩ false none envMissing
        "app.exe" =
      (Except.ok false, [Event.logError ("File not found: " ++ "app.exe")]) :=
  (c6_missing_artifact ⟨ftpW, ofRenameW, none, none⟩ false none envMissing
      "app.exe" rfl).1

/-- C2 counterexample: with the configured local notes folder absent,
`upload` returns failure (`false`), not success as the claim states. -/
theorem c2_notes_missing_cex :
    envMissing.localExists rnW.path = false ∧
    (ReleaseNotesUploader.upload rnW false envMissing).1 = false := by
  exact ⟨rfl, rfl⟩

/-- C2 amended: when the configured local folder is absent or is not a
directory, `upload` reports the condition with an error log and returns
failure (`false`); the orchestrator discards that value. -/
theorem c2_notes_missing_amended (rn : ReleaseNotesConfig) (dry_run : Bool)
    (env : Env)
    (h : env.localExists rn.path = false ∨ env.localIsDir rn.path = false) :
    (ReleaseNotesUploader.upload rn dry_run env).1 = false ∧
    (ReleaseNotesUploader.upload rn dry_run env).2.any Event.isErrorLog =
      true := by
  cases hex : env.localExists rn.path with
  | false =>
    refine ⟨?_, ?_⟩ <;> simp [ReleaseNotesUploader.upload, hex, Event.isErrorLog]
  | true =>
    have hdir : env.localIsDir rn.path = false := by
      rcases h with h | h
      · rw [hex] at h; exact absurd h (by simp)
      · exact h
    refine ⟨?_, ?_⟩ <;>
      simp [ReleaseNotesUploader.upload, hex, hdir, Event.isErrorLog]

/-- C2 amended witness: at the concrete missing-folder input, `upload`
fails and logs an error. -/
theorem c2_notes_missing_amended_witness :
    (ReleaseNotesUploader.upload rnW false envMissing).1 = false ∧
    (ReleaseNotesUploader.upload rnW false envMissing).2.any
      Event.isErrorLog = true :=
  c2_notes_missing_amended rnW false envMissing (Or.inl rfl)

/-- C9: in a live release in which every transport operation succeeds
(and which needs no pre-signing and no version gate), the result is
success no matter what boolean the release-notes uploader returns; the
orchestrator discards that value. -/
theorem c9_notes_result_discarded (cfg : ReleaseConfig) (env : Env)
    (filePath : String) (rn : ReleaseNotesConfig)
    (h1 : env.localExists filePath = true)
    (h2 : cfg.pre_sign = none)
    (h3 : cfg.release_notes = some rn) :
    (ReleaseManager.release cfg false none env filePath).1 =
      Except.ok true := by
  simp [ReleaseManager.release, executeRelease, checkVersionExists, h1, h2, h3]

/-- C9 witness: with the notes folder absent the uploader returns `false`,
yet the concrete live release still returns success. -/
theorem c9_notes_result_discarded_witness :
    (ReleaseNotesUploader.upload rnW false envArtifactOnly).1 = false ∧
    (ReleaseManager.release ⟨ftpW, ofRenameW, none, some rnW⟩ false none
        envArtifactOnly "app.exe").1 = Except.ok true :=
  ⟨rfl,
   c9_notes_result_discarded ⟨ftpW, ofRenameW, none, some rnW⟩ envArtifactOnly
     "app.exe" rnW rfl rfl rfl⟩

/-- A log event is neither a remote operation, nor a filesystem write, nor
a prompt. -/
theorem log_not_effect (e : Event) (he : e.isLog = true) :
    (!(e.isRemoteOp) && !(e.isFsWrite) && !(e.isPrompt)) = true := by
  cases e <;> simp_all [Event.isLog, Event.isRemoteOp, Event.isFsWrite,
    Event.isPrompt]

/-- Every event of the dry-run release-notes pass is a log line. -/
theorem upload_dry_events_log (rn : ReleaseNotesConfig) (env : Env) :
    (ReleaseNotesUploader.upload rn true env).2.all Event.isLog = true := by
  cases hex : env.localExists rn.path <;>
    cases hdir : env.localIsDir rn.path <;>
      cases hemp : (getLocalFolders (env.entries rn.path)).isEmpty <;>
        simp [ReleaseNotesUploader.upload, hex, hdir, hemp, dryRunUpload,
          Event.isLog]

/-- Every event of the whole dry-run release is a log line. -/
theorem release_dry_events_log (cfg : ReleaseConfig) (version : Option String)
    (env : Env) (filePath : String) :
    (dryRunRelease cfg version env filePath).2.all Event.isLog = true := by
  rcases version with _ | v
  · cases hps : cfg.pre_sign <;> cases hrn : cfg.release_notes <;>
      simp [dryRunRelease, hps, hrn, Event.isLog, upload_dry_events_log]
  · by_cases hv : v = "" <;>
      cases hps : cfg.pre_sign <;> cases hrn : cfg.release_notes <;>
        simp [dryRunRelease, hps, hrn, hv, Event.isLog,
          upload_dry_events_log]

/-- C3 counterexample: with release notes configured but the local notes
folder absent, a dry run succeeds yet its preview nowhere enumerates the
release-notes parameters (no `Local path` line), so the enumeration part
of the claim fails as stated. -/
theorem c3_dry_run_cex :
    (ReleaseConfig.mk ftpW ofRenameW none (some rnW)).release_notes =
      some rnW ∧
    envArtifactOnly.localExists "app.exe" = true ∧
    (ReleaseManager.release ⟨ftpW, ofRenameW, none, some rnW⟩ true none
        envArtifactOnly "app.exe").1 = Except.ok true ∧
    Event.logInfo ("[DRY RUN] Local path: " ++ rnW.path) ∉
      (ReleaseManager.release ⟨ftpW, ofRenameW, none, some rnW⟩ true none
        envArtifactOnly "app.exe").2 := by
  refine ⟨rfl, rfl, rfl, ?_⟩
  decide

/-- C3 amended: a dry run on an existing artifact returns success and
performs zero remote operations, zero filesystem mutations and no prompt;
its preview enumerates the pre-sign parameters when configured, the
connection target, the old-file policy, the version when a nonempty one
is given (Python truthiness), and the release-notes parameters when
configured, provided the local notes folder exists, is a directory and
has at least one subfolder. -/
theorem c3_dry_run (cfg : ReleaseConfig) (version : Option String) (env : Env)
    (filePath : String) (h : env.localExists filePath = true) :
    (ReleaseManager.release cfg true version env filePath).1 =
      Except.ok true ∧
    (ReleaseManager.release cfg true version env filePath).2.all
      (fun e => !(e.isRemoteOp) && !(e.isFsWrite) && !(e.isPrompt)) = true ∧
    (∀ ps, cfg.pre_sign = some ps →
      Event.logInfo "[DRY RUN] Pre-signing enabled" ∈
        (ReleaseManager.release cfg true version env filePath).2 ∧
      Event.logInfo ("[DRY RUN] Expected signer: " ++ ps.expected_signer) ∈
        (ReleaseManager.release cfg true version env filePath).2) ∧
    Event.logInfo ("[DRY RUN] Host: " ++ cfg.ftp.host ++ ":" ++
        toString cfg.ftp.port) ∈
      (ReleaseManager.release cfg true version env filePath).2 ∧
    Event.logInfo ("[DRY RUN] Old file policy: " ++
        policyValue cfg.old_file.policy) ∈
      (ReleaseManager.release cfg true version env filePath).2 ∧
    (∀ v, version = some v → v ≠ "" →
      Event.logInfo ("[DRY RUN] Version for backup: " ++ v) ∈
        (ReleaseManager.release cfg true version env filePath).2) ∧
    (∀ rn, cfg.release_notes = some rn → env.localExists rn.path = true →
      env.localIsDir rn.path = true →
      (getLocalFolders (env.entries rn.path)).isEmpty = false →
      Event.logInfo ("[DRY RUN] Local path: " ++ rn.path) ∈
        (ReleaseManager.release cfg true version env filePath).2 ∧
      Event.logInfo ("[DRY RUN] Remote path: " ++ rn.remote_path) ∈
        (ReleaseManager.release cfg true version env filePath).2) := by
  have hrel : ReleaseManager.release cfg true version env filePath =
      (Except.ok true,
       Event.logInfo ("Starting release of " ++ baseName filePath) ::
         (dryRunRelease cfg version env filePath).2) := by
    have hd1 : (dryRunRelease cfg version env filePath).1 = true := rfl
    simp [ReleaseManager.release, h, hd1]
  rw [hrel]
  refine ⟨rfl, ?_, ?_, ?_, ?_, ?_, ?_⟩
  · have hlog := release_dry_events_log cfg version env filePath
    rw [List.all_eq_true] at hlog ⊢
    intro e he
    rcases List.mem_cons.mp he with he | he
    · subst he; rfl
    · exact log_not_effect e (hlog e he)
  · intro ps hps
    refine ⟨?_, ?_⟩ <;> simp [dryRunRelease, hps]
  · simp [dryRunRelease]
  · simp [dryRunRelease]
  · intro v hv hne
    simp [dryRunRelease, hv, hne]
  · intro rn hrn hex hdir hemp
    refine ⟨?_, ?_⟩ <;>
      simp [dryRunRelease, hrn, ReleaseNotesUploader.upload, hex, hdir, hemp,
        dryRunUpload]

/-- C3 witness: a fully configured concrete dry run returns success. -/
theorem c3_dry_run_witness :
    (ReleaseManager.release
        ⟨ftpW, ofRenameW, some ⟨true, "exchange", "exchange_signed",
          "XIDA GmbH", 1, 2⟩, some rnW⟩ true (some "1.0.0") envNotesW
        "app.exe").1 = Except.ok true :=
  (c3_dry_run
    ⟨ftpW, ofRenameW, some ⟨true, "exchange", "exchange_signed",
      "XIDA GmbH", 1, 2⟩, some rnW⟩ (some "1.0.0") envNotesW "app.exe"
    rfl).1

/-- A list on which `p` is everywhere false answers `any p` with false. -/
theorem any_eq_false_of_all_not (p : Event → Bool) (l : List Event)
    (hl : l.all (fun e => !(p e)) = true) : l.any p = false := by
  induction l with
  | nil => rfl
  | cons a t ih =>
    rw [List.all_cons] at hl
    have h1 : p a = false := by
      have := hl
      simp at this
      exact this.1
    have h2 : t.all (fun e => !(p e)) = true := by
      have := hl
      simp at this
      rw [List.all_eq_true]
      intro x hx
      simp [this.2 x hx]
    simp [List.any_cons, h1, ih h2]

/-- The release-notes folder loop never prompts. -/
theorem uploadFolders_no_prompt (rn : ReleaseNotesConfig) (env : Env)
    (l : List String) :
    (uploadFolders rn env l).all (fun e => !(e.isPrompt)) = true := by
  induction l with
  | nil => rfl
  | cons f rest ih =>
    rw [uploadFolders]
    simp only [List.all_append, List.all_cons, List.all_nil,
      Bool.and_eq_true]
    refine ⟨⟨⟨rfl, rfl, rfl, trivial⟩, ?_⟩, ih⟩
    rw [List.all_eq_true]
    intro x hx
    rcases List.mem_map.mp hx with ⟨a, _, ha⟩
    subst ha; rfl

/-- The remote-folder listing emits the same two query events whether it
succeeds or fails. -/
theorem getRemoteFolders_events (rn : ReleaseNotesConfig) (env : Env) :
    (getRemoteFolders rn env).2 =
      [Event.changeDirectory rn.remote_path, Event.listDirectoriesQ] := by
  cases hl : env.listResult <;> simp [getRemoteFolders, hl]

/-- The live release-notes upload step never prompts. -/
theorem executeUpload_no_prompt (rn : ReleaseNotesConfig) (env : Env)
    (folders : List String) :
    (executeUpload rn env folders).2.all (fun e => !(e.isPrompt)) = true := by
  simp only [executeUpload, getRemoteFolders_events]
  split
  · simp [List.all_append, Event.isPrompt]
  · simp [List.all_append, Event.isPrompt]
    intro x hx
    have h2 := List.all_eq_true.mp (uploadFolders_no_prompt rn env _) x hx
    cases hb : Event.isPrompt x with
    | false => exact hb
    | true => rw [hb] at h2; exact absurd h2 (by decide)

/-- The release-notes sync never prompts, live or dry. -/
theorem upload_no_prompt (rn : ReleaseNotesConfig) (d : Bool) (env : Env) :
    (ReleaseNotesUploader.upload rn d env).2.all (fun e => !(e.isPrompt)) =
      true := by
  cases hex : env.localExists rn.path with
  | false => simp [ReleaseNotesUploader.upload, hex, Event.isPrompt]
  | true =>
    cases hdir : env.localIsDir rn.path with
    | false => simp [ReleaseNotesUploader.upload, hex, hdir, Event.isPrompt]
    | true =>
      cases hemp : (getLocalFolders (env.entries rn.path)).isEmpty with
      | true =>
        simp [ReleaseNotesUploader.upload, hex, hdir, hemp, Event.isPrompt]
      | false =>
        cases d with
        | true =>
          simp [ReleaseNotesUploader.upload, hex, hdir, hemp, dryRunUpload,
            Event.isPrompt]
        | false =>
          have h := executeUpload_no_prompt rn env
            (getLocalFolders (env.entries rn.path))
          simpa [ReleaseNotesUploader.upload, hex, hdir, hemp] using h

/-- The old-file handler never prompts. -/
theorem handleOldFile_no_prompt (c : OldFileConfig) (now : DateTime)
    (filename : String) (version : Option String) :
    (handleOldFile c now filename version).all (fun e => !(e.isPrompt)) =
      true := by
  cases hp : c.policy with
  | delete => simp [handleOldFile, hp, DeleteHandler.handle, Event.isPrompt]
  | rename =>
    cases hn : c.subfolder_naming <;> rcases version with _ | v
    · simp [handleOldFile, hp, hn, RenameHandler.handle, Event.isPrompt]
    · simp [handleOldFile, hp, hn, RenameHandler.handle, Event.isPrompt]
    · simp [handleOldFile, hp, hn, RenameHandler.handle, Event.isPrompt]
    · by_cases hv : v = "" <;>
        simp [handleOldFile, hp, hn, RenameHandler.handle, hv, Event.isPrompt]

/-- Every event the signature wait loop emits is a log line or a sleep. -/
def Event.isPollStep : Event → Bool
  | .logInfo _ => true
  | .sleep _ => true
  | _ => false

/-- The wait loop only logs and sleeps. -/
theorem waitLoop_poll_steps (cfg : PreSignConfig) (obs : Nat → PollObs)
    (sf : String) (fuel : Nat) :
    ∀ k, (waitLoop cfg obs sf k fuel).2.all Event.isPollStep = true := by
  induction fuel with
  | zero => intro k; rfl
  | succ n ih =>
    intro k
    rw [waitLoop]
    split
    · rfl
    · cases hobs : obs k with
      | absent =>
        dsimp only
        simp [ih (k + 1), Event.isPollStep]
      | present run =>
        dsimp only
        split
        · simp [Event.isPollStep]
        · simp [ih (k + 1), Event.isPollStep]

/-- The hand-back step only copies, unlinks and logs (no prompt). -/
theorem moveBack_no_prompt (env : Env) (s u o : String) :
    (moveBack env s u o).all (fun e => !(e.isPrompt)) = true := by
  cases hu : env.localExists u <;> simp [moveBack, hu, Event.isPrompt]

/-- The pre-sign workflow never prompts. -/
theorem process_no_prompt (cfg : PreSignConfig) (env : Env)
    (filePath : String) :
    (PreSigner.process cfg env filePath).2.all (fun e => !(e.isPrompt)) =
      true := by
  have hwl : ∀ k fuel,
      (waitLoop cfg env.polls
        (cfg.network_path_signed ++ "/" ++ baseName filePath) k fuel).2.all
        (fun e => !(e.isPrompt)) = true := by
    intro k fuel
    have h := waitLoop_poll_steps cfg env.polls
      (cfg.network_path_signed ++ "/" ++ baseName filePath) fuel k
    rw [List.all_eq_true] at h ⊢
    intro e he
    have := h e he
    cases e <;> simp_all [Event.isPollStep, Event.isPrompt]
  cases hacc : env.localExists cfg.network_path with
  | false => simp [PreSigner.process, hacc]
  | true =>
    rw [PreSigner.process]
    rw [hacc]
    simp only [Bool.not_true, Bool.false_eq_true, if_false]
    split
    · dsimp only
      rw [List.all_append, hwl 0 (cfg.timeout + 1)]
      rfl
    · dsimp only
      rw [List.all_append, List.all_append, hwl 0 (cfg.timeout + 1),
        moveBack_no_prompt]
      rfl

/-- The live release prompts exactly when its version-collision gate
prompts: no later step (pre-sign, handler, upload, notes sync) prompts. -/
theorem executeRelease_any_prompt (cfg : ReleaseConfig)
    (version : Option String) (env : Env) (filePath : String) :
    (executeRelease cfg version env filePath).2.any Event.isPrompt =
      (checkVersionExists cfg version env).2.any Event.isPrompt := by
  have hup : ∀ rn d,
      ((ReleaseNotesUploader.upload rn d env).2.any Event.isPrompt) = false :=
    fun rn d => any_eq_false_of_all_not _ _ (upload_no_prompt rn d env)
  have hof : ∀ c now fn v,
      ((handleOldFile c now fn v).any Event.isPrompt) = false :=
    fun c now fn v =>
      any_eq_false_of_all_not _ _ (handleOldFile_no_prompt c now fn v)
  have hpr : ∀ ps,
      ((PreSigner.process ps env filePath).2.any Event.isPrompt) = false :=
    fun ps => any_eq_false_of_all_not _ _ (process_no_prompt ps env filePath)
  simp only [executeRelease]
  cases hg : (checkVersionExists cfg version env).1 with
  | false => simp
  | true =>
    cases hps : cfg.pre_sign with
    | none =>
      cases hre : env.remoteFileExists (baseName filePath) <;>
        cases hrn : cfg.release_notes <;>
          simp [List.any_append, hup, hof, Event.isPrompt]
    | some ps =>
      cases hwp : (PreSigner.process ps env filePath).1 with
      | error e => simp [hwp, List.any_append, hpr, Event.isPrompt]
      | ok p2 =>
        cases hre : env.remoteFileExists (baseName filePath) <;>
          cases hrn : cfg.release_notes <;>
            simp [hwp, List.any_append, hup, hof, hpr, Event.isPrompt]

/-- When the gate lets the release proceed and no pre-signing is
configured, the live release succeeds and uploads the artifact. -/
theorem executeRelease_proceed (cfg : ReleaseConfig)
    (version : Option String) (env : Env) (filePath : String)
    (hgate : (checkVersionExists cfg version env).1 = true)
    (hps : cfg.pre_sign = none) :
    (executeRelease cfg version env filePath).1 = Except.ok true ∧
    (executeRelease cfg version env filePath).2.any Event.isUpload =
      true := by
  constructor <;>
    simp [executeRelease, hgate, hps, List.any_append, Event.isUpload]

/-- C1: in a live release the version-collision prompt fires exactly when
a version is supplied, the backup policy is Rename, and the remote backup
directory `{subfolder_base}/{version}` exists; when it fires and the
operator answer is non-affirmative, release returns failure having done no
pre-sign copy and no upload; an affirmative answer (here with pre-signing
unconfigured) lets the release proceed to a successful upload. -/
theorem c1_version_collision_gate (cfg : ReleaseConfig)
    (version : Option String) (env : Env) (filePath : String)
    (h : env.localExists filePath = true) :
    ((ReleaseManager.release cfg false version env filePath).2.any
        Event.isPrompt =
      (versionSupplied version &&
        (cfg.old_file.policy == OldFilePolicy.rename) &&
        env.remoteDirExists
          (cfg.old_file.subfolder_base ++ "/" ++ version.getD ""))) ∧
    ((ReleaseManager.release cfg false version env filePath).2.any
        Event.isPrompt = true →
      pyLower env.promptAnswer ≠ "y" →
      (ReleaseManager.release cfg false version env filePath).1 =
        Except.ok false ∧
      (ReleaseManager.release cfg false version env filePath).2.all
        (fun e => !(e.isFsWrite) && !(e.isUpload)) = true) ∧
    (pyLower env.promptAnswer = "y" → cfg.pre_sign = none →
      (ReleaseManager.release cfg false version env filePath).1 =
        Except.ok true ∧
      (ReleaseManager.release cfg false version env filePath).2.any
        Event.isUpload = true) := by
  have hrw : ReleaseManager.release cfg false version env filePath =
      ((executeRelease cfg version env filePath).1,
       Event.logInfo ("Starting release of " ++ baseName filePath) ::
         (executeRelease cfg version env filePath).2) := by
    simp [ReleaseManager.release, h]
  have hanyP : (ReleaseManager.release cfg false version env filePath).2.any
      Event.isPrompt =
      (checkVersionExists cfg version env).2.any Event.isPrompt := by
    rw [hrw]
    simp [List.any_cons, Event.isPrompt, executeRelease_any_prompt]
  refine ⟨?_, ?_, ?_⟩
  · rw [hanyP]
    rcases version with _ | v
    · simp [checkVersionExists, versionSupplied]
    · by_cases hve : v = ""
      · subst hve
        simp [checkVersionExists, versionSupplied]
      · cases hpol : cfg.old_file.policy with
        | delete => simp [checkVersionExists, versionSupplied, hve, hpol]
        | rename =>
          cases hdir : env.remoteDirExists
              (cfg.old_file.subfolder_base ++ "/" ++ v) with
          | false =>
            simp [checkVersionExists, versionSupplied, hve, hpol, hdir,
              Event.isPrompt]
          | true =>
            by_cases hans : pyLower env.promptAnswer = "y" <;>
              simp [checkVersionExists, versionSupplied, hve, hpol, hdir,
                hans, Event.isPrompt, List.any_append]
  · intro hp hna
    rw [hanyP] at hp
    rcases version with _ | v
    · simp [checkVersionExists] at hp
    · by_cases hve : v = ""
      · subst hve
        simp [checkVersionExists] at hp
      · cases hpol : cfg.old_file.policy with
        | delete => simp [checkVersionExists, hve, hpol] at hp
        | rename =>
          cases hdir : env.remoteDirExists
              (cfg.old_file.subfolder_base ++ "/" ++ v) with
          | false =>
            rw [checkVersionExists] at hp
            simp [hve, hpol, hdir, Event.isPrompt] at hp
          | true =>
            have hgate : checkVersionExists cfg (some v) env =
                (false,
                 [Event.connect,
                  Event.dirExistsQ (cfg.old_file.subfolder_base ++ "/" ++ v),
                  Event.logWarning ("Version folder already exists: " ++
                    (cfg.old_file.subfolder_base ++ "/" ++ v)),
                  Event.prompt ("Version " ++ v ++
                    " already exists. Overwrite? [y/N]: "),
                  Event.logInfo "Aborted by user", Event.disconnect]) := by
              simp [checkVersionExists, hve, hpol, hdir, hna]
            have hex : executeRelease cfg (some v) env filePath =
                (Except.ok false,
                 (checkVersionExists cfg (some v) env).2) := by
              simp [executeRelease, hgate]
            rw [hrw, hex, hgate]
            exact ⟨rfl, rfl⟩
  · intro hy hps
    have hgate : (checkVersionExists cfg version env).1 = true := by
      rcases version with _ | v
      · rfl
      · by_cases hve : v = ""
        · subst hve
          simp [checkVersionExists]
        · cases hpol : cfg.old_file.policy with
          | delete => simp [checkVersionExists, hve, hpol]
          | rename =>
            cases hdir : env.remoteDirExists
                (cfg.old_file.subfolder_base ++ "/" ++ v) with
            | false => simp [checkVersionExists, hve, hpol, hdir]
            | true => simp [checkVersionExists, hve, hpol, hdir, hy]
    have hpr := executeRelease_proceed cfg version env filePath hgate hps
    rw [hrw]
    exact ⟨hpr.1, by simp [List.any_cons, Event.isPrompt, hpr.2]⟩

/-- An environment that makes the version-collision gate fire and answers
the prompt negatively. -/
def envGateNo : Env :=
  { localExists := fun p => p == "app.exe"
    localIsDir := fun _ => false
    entries := fun _ => []
    remoteFileExists := fun _ => false
    remoteDirExists := fun p => p == "old_versions/1.0.0"
    listResult := some []
    promptAnswer := "n"
    now := dtW
    polls := fun _ => PollObs.absent }

/-- C1 witness: Rename policy, version `1.0.0`, the backup folder exists
remotely, the operator answers `n`: the release aborts with failure and no
upload happens. -/
theorem c1_version_collision_gate_witness :
    (ReleaseManager.release ⟨ftpW, ofRenameW, none, none⟩ false
        (some "1.0.0") envGateNo "app.exe").1 = Except.ok false ∧
    (ReleaseManager.release ⟨ftpW, ofRenameW, none, none⟩ false
        (some "1.0.0") envGateNo "app.exe").2.all
      (fun e => !(e.isFsWrite) && !(e.isUpload)) = true :=
  (c1_version_collision_gate ⟨ftpW, ofRenameW, none, none⟩ (some "1.0.0")
      envGateNo "app.exe" rfl).2.1 (by decide) (by decide)

/-- The code-point order is total. -/
theorem charLE_total (x y : List Char) :
    charLE x y = true ∨ charLE y x = true := by
  induction x generalizing y with
  | nil => left; rfl
  | cons a as ih =>
    cases y with
    | nil => right; rfl
    | cons b bs =>
      rcases Nat.lt_trichotomy a.toNat b.toNat with h | h | h
      · left; simp [charLE, h]
      · rcases ih bs with h2 | h2
        · left; simp [charLE, h, h2]
        · right; simp [charLE, h.symm, h2]
      · right; simp [charLE, h]

/-- The code-point order is transitive. -/
theorem charLE_trans (x y z : List Char) (h1 : charLE x y = true)
    (h2 : charLE y z = true) : charLE x z = true := by
  induction x generalizing y z with
  | nil => rfl
  | cons a as ih =>
    cases y with
    | nil => simp [charLE] at h1
    | cons b bs =>
      cases z with
      | nil => simp [charLE] at h2
      | cons c cs =>
        rcases Nat.lt_trichotomy a.toNat b.toNat with hab | hab | hab
        · rcases Nat.lt_trichotomy b.toNat c.toNat with hbc | hbc | hbc
          · simp [charLE, Nat.lt_trans hab hbc]
          · simp [charLE, hbc ▸ hab]
          · simp [charLE, Nat.lt_asymm hbc, hbc] at h2
        · rcases Nat.lt_trichotomy b.toNat c.toNat with hbc | hbc | hbc
          · simp [charLE, hab ▸ hbc]
          · have hac : a.toNat = c.toNat := hab.trans hbc
            simp [charLE, hab, hbc] at h1 h2
            simp [charLE, hac]
            exact ih bs cs h1 h2
          · simp [charLE, Nat.lt_asymm hbc, hbc] at h2
        · simp [charLE, Nat.lt_asymm hab, hab] at h1

instance : IsTotal String (fun a b => strLE a b = true) :=
  ⟨fun a b => charLE_total a.data b.data⟩

instance : IsTrans String (fun a b => strLE a b = true) :=
  ⟨fun a b c => charLE_trans a.data b.data c.data⟩

/-- The remote writes of the folder-upload loop, in closed form: one
directory creation per folder followed by the uploads of its regular
files. -/
theorem writes_uploadFolders (rn : ReleaseNotesConfig) (env : Env)
    (l : List String) :
    (uploadFolders rn env l).filter Event.isRemoteWrite =
      l.flatMap (fun f =>
        Event.ensureDirectory (rn.remote_path ++ "/" ++ f) ::
          ((env.entries (rn.path ++ "/" ++ f)).filter (·.isFile)).map
            (fun e =>
              Event.uploadFile (rn.path ++ "/" ++ f ++ "/" ++ e.name))) := by
  induction l with
  | nil => rfl
  | cons f rest ih =>
    rw [uploadFolders, List.flatMap_cons, List.filter_append,
      List.filter_append, ih, List.filter_map]
    simp [Function.comp_def, Event.isRemoteWrite]

/-- The remote writes of the live release-notes upload, in closed form. -/
theorem writes_executeUpload (rn : ReleaseNotesConfig) (env : Env)
    (folders : List String) :
    (executeUpload rn env folders).2.filter Event.isRemoteWrite =
      Event.ensureDirectory rn.remote_path ::
        (folders.filter
            (fun f => !((getRemoteFolders rn env).1.contains f))).flatMap
          (fun f =>
            Event.ensureDirectory (rn.remote_path ++ "/" ++ f) ::
              ((env.entries (rn.path ++ "/" ++ f)).filter (·.isFile)).map
                (fun e =>
                  Event.uploadFile
                    (rn.path ++ "/" ++ f ++ "/" ++ e.name))) := by
  simp only [executeUpload, getRemoteFolders_events]
  by_cases hne : (folders.filter
      (fun f => !((getRemoteFolders rn env).1.contains f))).isEmpty = true
  · rw [if_pos hne]
    have : folders.filter
        (fun f => !((getRemoteFolders rn env).1.contains f)) = [] :=
      List.isEmpty_iff.mp hne
    rw [this]
    simp [List.filter_append, Event.isRemoteWrite]
  · rw [if_neg hne]
    simp only [List.filter_append, writes_uploadFolders]
    simp [Event.isRemoteWrite]

/-- C7: in a live release-notes sync the remote writes are exactly: ensure
the base path, then, for each local subfolder name missing remotely taken
in sorted order, create that remote folder and upload the regular files
directly inside the local folder; folders already present remotely get no
write, and a failed remote listing behaves as an empty remote set. -/
theorem c7_notes_sync (rn : ReleaseNotesConfig) (env : Env)
    (hex : env.localExists rn.path = true)
    (hdir : env.localIsDir rn.path = true) :
    ((ReleaseNotesUploader.upload rn false env).2.filter
        Event.isRemoteWrite =
      (if (getLocalFolders (env.entries rn.path)).isEmpty then []
       else Event.ensureDirectory rn.remote_path ::
         ((getLocalFolders (env.entries rn.path)).filter
             (fun f => !((getRemoteFolders rn env).1.contains f))).flatMap
           (fun f =>
             Event.ensureDirectory (rn.remote_path ++ "/" ++ f) ::
               ((env.entries (rn.path ++ "/" ++ f)).filter (·.isFile)).map
                 (fun e =>
                   Event.uploadFile
                     (rn.path ++ "/" ++ f ++ "/" ++ e.name))))) ∧
    List.Sorted (fun a b => strLE a b = true)
      ((getLocalFolders (env.entries rn.path)).filter
        (fun f => !((getRemoteFolders rn env).1.contains f))) ∧
    (∀ f, f ∈ (getLocalFolders (env.entries rn.path)).filter
        (fun g => !((getRemoteFolders rn env).1.contains g)) ↔
      (f ∈ ((env.entries rn.path).filter (·.isDir)).map (·.name) ∧
        f ∉ (getRemoteFolders rn env).1)) ∧
    (env.listResult = none → (getRemoteFolders rn env).1 = []) := by
  refine ⟨?_, ?_, ?_, ?_⟩
  · cases hemp : (getLocalFolders (env.entries rn.path)).isEmpty with
    | true =>
      simp [ReleaseNotesUploader.upload, hex, hdir, hemp,
        Event.isRemoteWrite]
    | false =>
      have hup : ReleaseNotesUploader.upload rn false env =
          executeUpload rn env (getLocalFolders (env.entries rn.path)) := by
        simp [ReleaseNotesUploader.upload, hex, hdir, hemp]
      rw [hup, writes_executeUpload]
      simp
  · exact List.Sorted.filter _
      (List.sorted_insertionSort (fun a b => strLE a b = true) _)
  · intro f
    rw [List.mem_filter, getLocalFolders, pySort]
    rw [(List.perm_insertionSort (fun a b => strLE a b = true)
      (((env.entries rn.path).filter (·.isDir)).map (·.name))).mem_iff]
    simp [List.elem_iff]
  · intro hl
    simp [getRemoteFolders, hl]

/-- An environment for the sync witness: local subfolders `a` and `b`,
remote already has `a`. -/
def envSyncW : Env :=
  { localExists := fun p => p == "notes"
    localIsDir := fun p => p == "notes"
    entries := fun p =>
      if p == "notes" then [⟨"b", true, false⟩, ⟨"a", true, false⟩]
      else if p == "notes/b" then [⟨"b.txt", false, true⟩]
      else []
    remoteFileExists := fun _ => false
    remoteDirExists := fun _ => false
    listResult := some ["a"]
    promptAnswer := ""
    now := dtW
    polls := fun _ => PollObs.absent }

/-- C7 witness: with local folders `a` and `b` and remote `a`, exactly
folder `b` is created remotely and only its direct file is uploaded. -/
theorem c7_notes_sync_witness :
    (ReleaseNotesUploader.upload rnW false envSyncW).2.filter
        Event.isRemoteWrite =
      [Event.ensureDirectory "remote_notes",
       Event.ensureDirectory "remote_notes/b",
       Event.uploadFile "notes/b/b.txt"] := by
  have h := (c7_notes_sync rnW envSyncW rfl rfl).1
  rw [h]
  decide

/-- The signer a poll observes: none when the file is absent, otherwise
the result of the signature inspection. -/
def pollSigner : PollObs → Option String
  | .absent => none
  | .present r => getSignature r

/-- If no poll matches the expected signer, the wait loop (given fuel
covering the timeout and a positive poll interval) fails with the timeout
error. -/
theorem waitLoop_timeout (cfg : PreSignConfig) (obs : Nat → PollObs)
    (sf : String) (hint : 1 ≤ cfg.poll_interval)
    (hnom : ∀ k, signerMatches (pollSigner (obs k))
      cfg.expected_signer = false) :
    ∀ fuel k, k ≤ cfg.timeout → cfg.timeout + 1 ≤ k + fuel →
      (waitLoop cfg obs sf k fuel).1 =
        Except.error (RTError.preSign
          ("Timeout waiting for signature after " ++ toString cfg.timeout ++
            "s")) := by
  intro fuel
  induction fuel with
  | zero => intro k hk1 hk2; omega
  | succ n ih =>
    intro k hk1 hk2
    rw [waitLoop]
    by_cases ht : cfg.timeout ≤ k * cfg.poll_interval
    · rw [if_pos ht]
    · rw [if_neg ht]
      have hkt : k < cfg.timeout := by
        have hmul : k ≤ k * cfg.poll_interval :=
          Nat.le_mul_of_pos_right k (by omega)
        omega
      cases hobs : obs k with
      | absent =>
        dsimp only
        exact ih (k + 1) (by omega) (by omega)
      | present run =>
        have hm := hnom k
        rw [hobs] at hm
        dsimp only [pollSigner] at hm
        dsimp only
        rw [if_neg (by simp [hm])]
        dsimp only
        exact ih (k + 1) (by omega) (by omega)

/-- C5: when no poll before the timeout (indeed, no poll at all) yields
the expected signer, the pre-sign workflow fails with the timeout error
and performs no hand-back: the only filesystem mutation in its trace is
the initial stage-in copy of the artifact to the exchange path — no copy
onto the original and no cleanup deletion. -/
theorem c5_presign_timeout (cfg : PreSignConfig) (env : Env)
    (filePath : String) (hint : 1 ≤ cfg.poll_interval)
    (hacc : env.localExists cfg.network_path = true)
    (hnom : ∀ k, signerMatches (pollSigner (env.polls k))
      cfg.expected_signer = false) :
    (PreSigner.process cfg env filePath).1 =
      Except.error (RTError.preSign
        ("Timeout waiting for signature after " ++ toString cfg.timeout ++
          "s")) ∧
    (PreSigner.process cfg env filePath).2.filter Event.isFsWrite =
      [Event.copyFile filePath
        (cfg.network_path ++ "/" ++ baseName filePath)] := by
  have hto := waitLoop_timeout cfg env.polls
    (cfg.network_path_signed ++ "/" ++ baseName filePath) hint hnom
    (cfg.timeout + 1) 0 (Nat.zero_le _) (by omega)
  have hflt : (waitLoop cfg env.polls
      (cfg.network_path_signed ++ "/" ++ baseName filePath) 0
      (cfg.timeout + 1)).2.filter Event.isFsWrite = [] := by
    rw [List.filter_eq_nil_iff]
    intro e he
    have hstep := List.all_eq_true.mp (waitLoop_poll_steps cfg env.polls
      (cfg.network_path_signed ++ "/" ++ baseName filePath)
      (cfg.timeout + 1) 0) e he
    cases e <;> simp_all [Event.isPollStep, Event.isFsWrite]
  constructor
  · simp only [PreSigner.process, hacc, Bool.not_true, Bool.false_eq_true,
      if_false]
    rw [hto]
  · simp only [PreSigner.process, hacc, Bool.not_true, Bool.false_eq_true,
      if_false]
    rw [hto]
    dsimp only
    rw [List.filter_append, hflt]
    simp [Event.isFsWrite]

/-- A poll sequence in which the signed file never appears. -/
def pollsAbsent : Nat → PollObs := fun _ => PollObs.absent

/-- An environment for the pre-sign timeout witness. -/
def envPollW : Env :=
  { localExists := fun p => p == "app.exe" || p == "exchange"
    localIsDir := fun _ => false
    entries := fun _ => []
    remoteFileExists := fun _ => false
    remoteDirExists := fun _ => false
    listResult := some []
    promptAnswer := ""
    now := dtW
    polls := pollsAbsent }

/-- A concrete pre-sign configuration with poll interval 1s, timeout 2s. -/
def psPollW : PreSignConfig :=
  ⟨true, "exchange", "exchange_signed", "XIDA GmbH", 1, 2⟩

/-- C5 witness: with the signed file never appearing, the concrete
pre-sign run times out after 2s and its only filesystem write is the
stage-in copy. -/
theorem c5_presign_timeout_witness :
    (PreSigner.process psPollW envPollW "app.exe").1 =
      Except.error (RTError.preSign
        ("Timeout waiting for signature after " ++ toString psPollW.timeout ++
          "s")) ∧
    (PreSigner.process psPollW envPollW "app.exe").2.filter Event.isFsWrite =
      [Event.copyFile "app.exe"
        (psPollW.network_path ++ "/" ++ baseName "app.exe")] :=
  c5_presign_timeout psPollW envPollW "app.exe" (by decide) (by decide)
    (fun k => rfl)

/-- C10: the signer compared against the expectation is only the `CN=`
component of the stripped subject (never the full distinguished name, and
absent when no comma-separated component starts with `CN=`); a crashed or
timed-out inspection, a nonzero return code, or empty output also yield an
absent signer; and a poll before the timeout whose inspection yields an
absent signer makes the wait loop log, sleep and continue with the next
poll. -/
theorem c10_signer_cn (cfg : PreSignConfig) (obs : Nat → PollObs)
    (sf : String) (k n : Nat) (rc : Int) (out : String) (run : RunResult)
    (hk : k * cfg.poll_interval < cfg.timeout)
    (hobs : obs k = PollObs.present run)
    (hun : getSignature run = none) :
    getSignature RunResult.crashed = none ∧
    (getSignature (RunResult.finished rc out) =
      if rc = 0 ∧ pyStrip out ≠ "" then parseCN (pyStrip out) else none) ∧
    (∀ r, parseCN out = some r →
      ∃ part, part ∈ pySplitComma out ∧
        pyStartsWith (pyStrip part) "CN=" = true ∧
        r = pyStrip (pyDrop (pyStrip part) 3)) ∧
    ((pySplitComma out).all
        (fun part => !(pyStartsWith (pyStrip part) "CN=")) = true →
      parseCN out = none) ∧
    waitLoop cfg obs sf k (n + 1) =
      ((waitLoop cfg obs sf (k + 1) n).1,
       Event.logInfo ("Waiting for signature... (" ++
           toString (cfg.timeout - k * cfg.poll_interval) ++
           "s remaining, current: " ++ "unsigned" ++ ")") ::
         Event.sleep cfg.poll_interval ::
           (waitLoop cfg obs sf (k + 1) n).2) := by
  refine ⟨rfl, ?_, ?_, ?_, ?_⟩
  · by_cases h1 : rc = 0 <;> by_cases h2 : pyStrip out = "" <;>
      simp [getSignature, h1, h2]
  · intro r hr
    rw [parseCN] at hr
    rcases List.exists_of_findSome?_eq_some hr with ⟨part, hmem, hpart⟩
    by_cases hs : pyStartsWith (pyStrip part) "CN=" = true
    · refine ⟨part, hmem, hs, ?_⟩
      simp only [hs, if_true] at hpart
      exact (Option.some_injective _ hpart).symm
    · simp only at hpart
      rw [if_neg hs] at hpart
      cases hpart
  · intro hall
    rw [parseCN, List.findSome?_eq_none_iff]
    intro part hmem
    have := List.all_eq_true.mp hall part hmem
    simp only at this ⊢
    rw [if_neg (by simp [Bool.not_eq_true'] at this; simp [this])]
  · rw [waitLoop]
    rw [if_neg (by omega)]
    rw [hobs]
    dsimp only
    rw [hun]
    rfl

/-- C10 witness: a subject with no `CN=` component yields an absent
signer, and the wait loop at a concrete non-matching poll continues into
the next iteration. -/
theorem c10_signer_cn_witness :
    getSignature (RunResult.finished 0 "OU=Dev, O=X") =
      (if (0 : Int) = 0 ∧ pyStrip "OU=Dev, O=X" ≠ "" then
        parseCN (pyStrip "OU=Dev, O=X") else none) ∧
    waitLoop psPollW (fun _ => PollObs.present (RunResult.finished 0
        "OU=Dev, O=X")) "app.exe" 0 (1 + 1) =
      ((waitLoop psPollW (fun _ => PollObs.present (RunResult.finished 0
          "OU=Dev, O=X")) "app.exe" (0 + 1) 1).1,
       Event.logInfo ("Waiting for signature... (" ++
           toString (psPollW.timeout - 0 * psPollW.poll_interval) ++
           "s remaining, current: " ++ "unsigned" ++ ")") ::
         Event.sleep psPollW.poll_interval ::
           (waitLoop psPollW (fun _ => PollObs.present (RunResult.finished 0
              "OU=Dev, O=X")) "app.exe" (0 + 1) 1).2) :=
  ⟨(c10_signer_cn psPollW
      (fun _ => PollObs.present (RunResult.finished 0 "OU=Dev, O=X"))
      "app.exe" 0 1 0 "OU=Dev, O=X" (RunResult.finished 0 "OU=Dev, O=X")
      (by decide) rfl (by decide)).2.1,
   (c10_signer_cn psPollW
      (fun _ => PollObs.present (RunResult.finished 0 "OU=Dev, O=X"))
      "app.exe" 0 1 0 "OU=Dev, O=X" (RunResult.finished 0 "OU=Dev, O=X")
      (by decide) rfl (by decide)).2.2.2.2⟩

end ReleaseTool
